import Mathlib

/-
Verification development for the NearestNeighbor product-recommendation
pipeline (sources: main.py, invokemodel.py, s3filehandler.py).

The embedding below translates the batching, invocation and reshaping
logic of the repository into Lean:

  * a dataset row is the record of the four columns the code reads
    (item_id, marketplace_id, img_id, product_type); passthrough columns
    are irrelevant to every claim and omitted;
  * Python exceptions are values of PyExc; raising is modelled with
    Except, and the Status Envelope dictionaries the code raises are the
    Envelope structure;
  * the two remote endpoints, and the credential acquisition call, are an
    oracle (RemoteWorld) holding the outcome of each effectful step of
    one invocation: either an exception or, for the endpoints, the raw
    response body string;
  * Python eval applied to a response body (invokemodel.py lines 122 and
    145) is modelled by pyEval, a parser-evaluator for the expression
    grammar the payloads of this pipeline live in: single- or
    double-quoted strings, integer literals, list and dict displays,
    True/False/None, and call expressions f(...), whose evaluation is
    flagged (the Bool component) because it runs code.  json.loads, the
    strict decoder the spec demands, is modelled by jsonLoads over the
    same grammar restricted to JSON (double quotes only, true/false/null,
    no calls).  Both are restricted to integer numerals; no claim
    computes with float values.
-/

/-- One dataset row, holding the four columns the pipeline reads.  The
marketplace_id is kept as the string the code obtains via the call to
str() in invokemodel.py line 54. -/
structure Row where
  item_id : String
  marketplace_id : String
  img_id : String
  product_type : String
deriving DecidableEq

/-- The uniform status dictionary raised by every layer of the code. -/
structure Envelope where
  event_message : String
  reason : String
deriving DecidableEq

/-- Python exceptions that occur in the modelled code: KeyError from the
marketplace dict lookup, botocore NoCredentialsError, an Exception
carrying an Envelope dictionary, and any other exception carrying just a
message (endpoint, network or parse failures). -/
inductive PyExc where
  | keyError : String → PyExc
  | noCredentialsError : PyExc
  | envelopeExc : Envelope → PyExc
  | otherError : String → PyExc
deriving DecidableEq

/-- Models Python str(e): a KeyError prints the repr of its key, an
Exception whose argument is an envelope dict prints that dict. -/
def PyExc.toMessage : PyExc → String
  | .keyError k => "\x27" ++ k ++ "\x27"
  | .noCredentialsError => "Unable to locate credentials"
  | .envelopeExc env =>
      "\x7b\x27event_message\x27: \x27" ++ env.event_message ++
        "\x27, \x27reason\x27: \x27" ++ env.reason ++ "\x27\x7d"
  | .otherError m => m

/-- Temporary credentials produced by the assume-role call
(invokemodel.py lines 94-97). -/
structure Credentials where
  accessKeyId : String
  secretAccessKey : String
  sessionToken : String
deriving DecidableEq

/-- Values of the payload language: results of evaluating response
bodies.  callRes records the evaluation of a call expression, i.e. the
payload ran code. -/
inductive PyVal where
  | str : String → PyVal
  | int : Int → PyVal
  | list : List PyVal → PyVal
  | dict : List (String × PyVal) → PyVal
  | bool : Bool → PyVal
  | none : PyVal
  | callRes : String → List PyVal → PyVal

/-- Drop ASCII whitespace from the front of the character stream. -/
def skipWs : List Char → List Char
  | [] => []
  | c :: cs => if c == ' ' || c == '\n' || c == '\t' || c == '\r' then skipWs cs else c :: cs

/-- Read characters up to the closing quote q (payloads use no escape
sequences). -/
def takeUntilQuote (q : Char) : List Char → Option (List Char × List Char)
  | [] => Option.none
  | c :: cs =>
    if c == q then some ([], cs)
    else
      match takeUntilQuote q cs with
      | some (s, rest) => some (c :: s, rest)
      | Option.none => Option.none

/-- Longest digit run at the front of the stream. -/
def takeDigits : List Char → (List Char × List Char)
  | [] => ([], [])
  | c :: cs =>
    if c.isDigit then
      match takeDigits cs with
      | (ds, rest) => (c :: ds, rest)
    else ([], c :: cs)

/-- Longest identifier run (letters, digits, underscore) at the front of
the stream. -/
def takeIdent : List Char → (List Char × List Char)
  | [] => ([], [])
  | c :: cs =>
    if c.isAlpha || c.isDigit || c == '_' then
      match takeIdent cs with
      | (ds, rest) => (c :: ds, rest)
    else ([], c :: cs)

/-- Numeric value of a digit run. -/
def digitsToNat (ds : List Char) : Nat := ds.foldl (fun n c => n * 10 + (c.toNat - 48)) 0

/-- Comma-separated sequence of values up to the closing bracket, used
for list displays and call argument lists.  pv parses one value; the
Bool flags that some element evaluation ran code. -/
def parseItems (pv : List Char → Option ((PyVal × Bool) × List Char)) (close : Char) :
    Nat → List Char → Option ((List PyVal × Bool) × List Char)
  | 0, _ => Option.none
  | n + 1, cs =>
    match skipWs cs with
    | [] => Option.none
    | c :: cs' =>
      if c == close then some (([], false), cs')
      else
        match pv (c :: cs') with
        | Option.none => Option.none
        | some ((v, ex), rest) =>
          match skipWs rest with
          | [] => Option.none
          | c2 :: rest' =>
            if c2 == close then some (([v], ex), rest')
            else if c2 == ',' then
              match parseItems pv close n rest' with
              | some ((vs, ex2), rest2) => some ((v :: vs, ex || ex2), rest2)
              | Option.none => Option.none
            else Option.none

/-- Comma-separated dict entries up to the closing brace.  Keys are
string literals; py selects whether single-quoted keys are legal. -/
def parseDictItems (pv : List Char → Option ((PyVal × Bool) × List Char)) (py : Bool) :
    Nat → List Char → Option ((List (String × PyVal) × Bool) × List Char)
  | 0, _ => Option.none
  | n + 1, cs =>
    match skipWs cs with
    | [] => Option.none
    | c :: cs' =>
      if c == '\x7d' then some (([], false), cs')
      else if c == '\x22' || (py && c == '\x27') then
        match takeUntilQuote c cs' with
        | Option.none => Option.none
        | some (key, afterKey) =>
          match skipWs afterKey with
          | ':' :: afterColon =>
            match pv afterColon with
            | Option.none => Option.none
            | some ((v, ex), rest) =>
              match skipWs rest with
              | '\x7d' :: rest' => some (([(String.mk key, v)], ex), rest')
              | ',' :: rest' =>
                match parseDictItems pv py n rest' with
                | some ((kvs, ex2), rest2) => some (((String.mk key, v) :: kvs, ex || ex2), rest2)
                | Option.none => Option.none
              | _ => Option.none
          | _ => Option.none
      else Option.none

/-- One value of the payload grammar.  With py true this is the Python
expression grammar eval accepts on these payloads (single or double
quotes, True/False/None, call expressions, whose evaluation is flagged
as having run code); with py false it is strict JSON (double quotes,
true/false/null, no calls). -/
def parseVal (py : Bool) : Nat → List Char → Option ((PyVal × Bool) × List Char)
  | 0, _ => Option.none
  | n + 1, cs =>
    match skipWs cs with
    | [] => Option.none
    | c :: cs' =>
      if c == '\x22' || (py && c == '\x27') then
        match takeUntilQuote c cs' with
        | some (s, rest) => some ((PyVal.str (String.mk s), false), rest)
        | Option.none => Option.none
      else if c == '[' then
        match parseItems (parseVal py n) ']' n cs' with
        | some ((vs, ex), rest) => some ((PyVal.list vs, ex), rest)
        | Option.none => Option.none
      else if c == '\x7b' then
        match parseDictItems (parseVal py n) py n cs' with
        | some ((kvs, ex), rest) => some ((PyVal.dict kvs, ex), rest)
        | Option.none => Option.none
      else if c == '-' then
        match takeDigits cs' with
        | ([], _) => Option.none
        | (ds, rest) => some ((PyVal.int (-(Int.ofNat (digitsToNat ds))), false), rest)
      else if c.isDigit then
        match takeDigits (c :: cs') with
        | (ds, rest) => some ((PyVal.int (Int.ofNat (digitsToNat ds)), false), rest)
      else if c.isAlpha || c == '_' then
        match takeIdent (c :: cs') with
        | (id, rest) =>
          let name := String.mk id
          if py then
            if name == ("True") then some ((PyVal.bool true, false), rest)
            else if name == ("False") then some ((PyVal.bool false, false), rest)
            else if name == ("None") then some ((PyVal.none, false), rest)
            else
              match skipWs rest with
              | '(' :: afterParen =>
                match parseItems (parseVal py n) ')' n afterParen with
                | some ((args, _), rest2) => some ((PyVal.callRes name args, true), rest2)
                | Option.none => Option.none
              | _ => Option.none
          else
            if name == ("true") then some ((PyVal.bool true, false), rest)
            else if name == ("false") then some ((PyVal.bool false, false), rest)
            else if name == ("null") then some ((PyVal.none, false), rest)
            else Option.none
      else Option.none

/-- Models Python eval applied to a whole response body: the value, plus
a flag recording whether evaluating it ran code (a call expression).
Returns Option.none where eval would raise. -/
def pyEval (s : String) : Option (PyVal × Bool) :=
  match parseVal true (s.length + 2) s.toList with
  | some ((v, ex), rest) => if (skipWs rest).isEmpty then some (v, ex) else Option.none
  | Option.none => Option.none

/-- Modelled from the spec: the strict structured JSON decoder
(json.loads) that section 4.3 of the spec requires for response bodies;
it rejects every payload outside strict JSON and never evaluates one as
code.  The repository itself never calls such a decoder on responses. -/
def jsonLoads (s : String) : Option PyVal :=
  match parseVal false (s.length + 2) s.toList with
  | some ((v, _), rest) => if (skipWs rest).isEmpty then some v else Option.none
  | Option.none => Option.none

/-- First binding of a key in a dict value (payload dicts in this
development have distinct keys, so first and last binding agree). -/
def dictGet : List (String × PyVal) → String → Option PyVal
  | [], _ => Option.none
  | (k, v) :: rest, key => if k == key then some v else dictGet rest key

/-- Models the Python subscript d[key]: KeyError on a missing key,
TypeError on a non-dict. -/
def pySubscript (v : PyVal) (key : String) : Except PyExc PyVal :=
  match v with
  | PyVal.dict entries =>
    match dictGet entries key with
    | some x => Except.ok x
    | Option.none => Except.error (PyExc.keyError key)
  | _ => Except.error (PyExc.otherError ("TypeError: object is not subscriptable"))

/-- Models eval on a body string: the evaluated value, or the exception
eval raises on a body outside the grammar. -/
def evalStr (s : String) : Except PyExc PyVal :=
  match pyEval s with
  | some (v, _) => Except.ok v
  | Option.none => Except.error (PyExc.otherError ("SyntaxError: invalid syntax"))

/-- Stage-1 response processing, invokemodel.py lines 120-122:
eval(outp) followed by the subscript with key embeddings (the np.array
wrapper only changes the container, not the content, and tolist undoes
it before the value is used). -/
def decodeStage1 (body : String) : Except PyExc PyVal :=
  match evalStr body with
  | Except.error e => Except.error e
  | Except.ok v => pySubscript v ("embeddings")

/-- Stage-2 response processing, invokemodel.py lines 143-148:
eval(eval(outp)).  The outer eval must yield a string (else Python eval
raises a TypeError), which is evaluated again; then the two parallel
neighbor fields are read. -/
def decodeStage2 (body : String) : Except PyExc (PyVal × PyVal) :=
  match evalStr body with
  | Except.error e => Except.error e
  | Except.ok (PyVal.str s2) =>
    match evalStr s2 with
    | Except.error e => Except.error e
    | Except.ok v2 =>
      match pySubscript v2 ("neighbor_item_ids") with
      | Except.error e => Except.error e
      | Except.ok nids =>
        match pySubscript v2 ("neighbor_item_ids_distances") with
        | Except.error e => Except.error e
        | Except.ok nd => Except.ok (nids, nd)
  | Except.ok _ =>
    Except.error (PyExc.otherError ("TypeError: eval() arg 1 must be a string, bytes or code object"))

/-- The stage-1 prompt built in the constructor, invokemodel.py lines
57-60. -/
structure Prompt where
  physical_id : List String
  pt : String
deriving DecidableEq

/-- The state the InvokeModel constructor leaves behind (invokemodel.py
lines 34-61): the chunk, the img_id column, the product type and
marketplace taken from the first row, and the stage-1 prompt. -/
structure InvokeModelState where
  df_chunk : List Row
  img_id_list : List String
  pt : String
  mp : String
  prompt : Prompt
deriving DecidableEq

/-- The marketplace registry dict, invokemodel.py lines 40-44 (the same
table is duplicated in main.py lines 35-39).  Option.none models the
KeyError branch of the dict lookup. -/
def mps_mapping : String → Option String
  | "000000" => some ("US")
  | "111111" => some ("UK")
  | "222222" => some ("ES")
  | _ => Option.none

/-- The batch size limit configured in the InvokeModel constructor,
invokemodel.py line 48. -/
def InvokeModel.batch_size : Nat := 32

/-- The InvokeModel constructor, invokemodel.py lines 34-61.  Reading
item 0 of an empty chunk raises IndexError; the marketplace lookup on
the first row raises KeyError when the id is absent from the registry.
No other row is consulted and no homogeneity check occurs. -/
def InvokeModel.init (df_chunk : List Row) : Except PyExc InvokeModelState :=
  match df_chunk with
  | [] => Except.error (PyExc.otherError ("IndexError: list index out of range"))
  | r :: _ =>
    match mps_mapping r.marketplace_id with
    | Option.none => Except.error (PyExc.keyError r.marketplace_id)
    | some region =>
      Except.ok
        { df_chunk := df_chunk
          img_id_list := df_chunk.map Row.img_id
          pt := r.product_type
          mp := region
          prompt := { physical_id := df_chunk.map Row.img_id, pt := r.product_type } }

/-- The stage-2 request dictionary, invokemodel.py lines 125-129,
built from the embeddings of stage 1 and the product type and
marketplace stored by the constructor. -/
def input_artifact (st : InvokeModelState) (embeddings : PyVal) : PyVal :=
  PyVal.dict
    [(("embedding"), embeddings), (("pt"), PyVal.str st.pt), (("marketplace"), PyVal.str st.mp)]

/-- Outcomes of the effectful steps of one invocation: the assume-role
call and the raw bodies returned by the two endpoint calls.  Responses
are fixed per invocation; the request bodies the code builds are the
pure values prompt and input_artifact. -/
structure RemoteWorld where
  assume_role : Except PyExc Credentials
  stage1Body : Except PyExc String
  stage2Body : Except PyExc String

/-- The try block of invoke_model, invokemodel.py lines 92-148: assume
the role, call the embeddings endpoint and decode its body, build the
stage-2 request, call the neighbors endpoint and decode its body into
the two parallel neighbor values. -/
def invokeModelTry (st : InvokeModelState) (w : RemoteWorld) : Except PyExc (PyVal × PyVal) :=
  match w.assume_role with
  | Except.error e => Except.error e
  | Except.ok _ =>
    match w.stage1Body with
    | Except.error e => Except.error e
    | Except.ok body1 =>
      match decodeStage1 body1 with
      | Except.error e => Except.error e
      | Except.ok emb =>
        let _artifact := input_artifact st emb
        match w.stage2Body with
        | Except.error e => Except.error e
        | Except.ok body2 => decodeStage2 body2

/-- One flattened output record, invokemodel.py lines 167-174.  The
neighbor id and distance entries are carried through untouched, so their
types are parameters. -/
structure OutputRow (ν δ : Type) where
  item_id : String
  marketplace_id : String
  img_id : String
  product_type : String
  neighbor_item_ids : ν
  neighbors_dist : δ
deriving DecidableEq

/-- The result-shaping triple loop, invokemodel.py lines 162-177: zip
the two outer parallel sequences, and for each such pair iterate over
every row of the chunk and zip the inner id and distance lists,
appending one output record per inner pair.  (The local counter named
index in the source is written but never read and is omitted.) -/
def shapeResults {ν δ : Type} (df_chunk : List Row)
    (neighbor_item_ids : List (List ν)) (neighbor_item_ids_distances : List (List δ)) :
    List (OutputRow ν δ) :=
  ((neighbor_item_ids.zip neighbor_item_ids_distances).map (fun pl =>
    (df_chunk.map (fun row =>
      (pl.1.zip pl.2).map (fun nd =>
        { item_id := row.item_id
          marketplace_id := row.marketplace_id
          img_id := row.img_id
          product_type := row.product_type
          neighbor_item_ids := nd.1
          neighbors_dist := nd.2 }))).flatten)).flatten

/-- Python iteration over a payload value: only list values iterate. -/
def asPyList : PyVal → Except PyExc (List PyVal)
  | PyVal.list xs => Except.ok xs
  | _ => Except.error (PyExc.otherError ("TypeError: object is not iterable"))

/-- Iterate a list of payload values as lists. -/
def asPyListList : List PyVal → Except PyExc (List (List PyVal))
  | [] => Except.ok []
  | x :: xs =>
    match asPyList x, asPyListList xs with
    | Except.ok l, Except.ok ls => Except.ok (l :: ls)
    | Except.error e, _ => Except.error e
    | _, Except.error e => Except.error e

/-- A payload value as a list of lists, the shape the reshaping loops
iterate over. -/
def asNestedList (v : PyVal) : Except PyExc (List (List PyVal)) :=
  match asPyList v with
  | Except.ok xs => asPyListList xs
  | Except.error e => Except.error e

/-- invoke_model, invokemodel.py lines 63-178.  The size guard (lines
86-90) raises its envelope before the try block, so it is not rewrapped;
inside the try any NoCredentialsError is rewrapped into the named
credentials envelope (lines 150-154) and every other exception into the
generic envelope carrying str(e) (lines 155-159); on success the
response values are reshaped by the triple loop, which runs after the
try/except, so an iteration failure there would propagate unwrapped. -/
def invoke_model (st : InvokeModelState) (w : RemoteWorld) :
    Except PyExc (List (OutputRow PyVal PyVal)) :=
  if st.img_id_list.length > InvokeModel.batch_size then
    Except.error (PyExc.envelopeExc
      { event_message := ("FAILURE")
        reason := ("the batch_size should be " ++ toString InvokeModel.batch_size) })
  else
    match invokeModelTry st w with
    | Except.error PyExc.noCredentialsError =>
      Except.error (PyExc.envelopeExc
        { event_message := ("FAILURE"), reason := ("Credentials could not be found") })
    | Except.error e =>
      Except.error (PyExc.envelopeExc
        { event_message := ("FAILURE"), reason := ("An error occurred: " ++ e.toMessage) })
    | Except.ok (nidsV, ndV) =>
      match asNestedList nidsV, asNestedList ndV with
      | Except.ok nids, Except.ok nd => Except.ok (shapeResults st.df_chunk nids nd)
      | Except.error e, _ => Except.error e
      | _, Except.error e => Except.error e

/-- The batch size configured in the Main constructor, main.py line
31. -/
def Main.batch_size : Nat := 32

/-- First-occurrence distinct values of a key column, with enough fuel
to consume the whole list; models pandas Series.unique as used in
main.py lines 64 and 70. -/
def uniqueKeysAux : Nat → List String → List String
  | 0, _ => []
  | _ + 1, [] => []
  | n + 1, k :: rest => k :: uniqueKeysAux n (rest.filter (fun x => !(x == k)))

/-- Distinct values of a key column in order of first occurrence. -/
def uniqueKeys (l : List String) : List String := uniqueKeysAux l.length l

/-- The batch split of one homogeneous group, main.py lines 73-85:
floor(N / B) full slices of B rows in order, then, when N mod B is
positive, the final slice holding the last N mod B rows. -/
def splitChunks (B : Nat) (l : List Row) : List (List Row) :=
  (List.range (l.length / B)).map (fun i => (l.drop (i * B)).take B) ++
    (if l.length % B > 0 then [l.drop (l.length - l.length % B)] else [])

/-- The rows of one (product_type, marketplace_id) group, in dataset
order: the double filter of main.py lines 66 and 72. -/
def groupRows (df : List Row) (p m : String) : List Row :=
  (df.filter (fun r => r.product_type == p)).filter (fun r => r.marketplace_id == m)

/-- The (product_type, marketplace_id) pairs in the order the nested
loops of main.py lines 64-72 visit them. -/
def groupKeys (df : List Row) : List (String × String) :=
  ((uniqueKeys (df.map Row.product_type)).map (fun p =>
    (uniqueKeys ((df.filter (fun r => r.product_type == p)).map Row.marketplace_id)).map
      (fun m => (p, m)))).flatten

/-- All batches of a dataset in emission order: for each product type in
first-occurrence order, for each marketplace within it, the chunk split
of that group (main.py lines 64-88). -/
def partitionBatches (df : List Row) (B : Nat) : List (List Row) :=
  ((uniqueKeys (df.map Row.product_type)).map (fun p =>
    ((uniqueKeys ((df.filter (fun r => r.product_type == p)).map Row.marketplace_id)).map
      (fun m => splitChunks B (groupRows df p m))).flatten)).flatten

/-- The per-batch loop of get_predictions, main.py lines 88-103, run
over the batch list with the oracle of the i-th invocation: construct
the InvokeModel object and call invoke_model; on success append the
output rows; any exception escapes the loop (invoke_model raises on
failure rather than returning a dict, so the dict branch of main.py
lines 94-98 never runs and no ErroStatus rows are produced). -/
def runBatches (ws : Nat → RemoteWorld) : Nat → List (List Row) →
    Except PyExc (List (OutputRow PyVal PyVal))
  | _, [] => Except.ok []
  | i, chunk :: rest =>
    match InvokeModel.init chunk with
    | Except.error e => Except.error e
    | Except.ok st =>
      match invoke_model st (ws i) with
      | Except.error e => Except.error e
      | Except.ok out =>
        match runBatches ws (i + 1) rest with
        | Except.error e => Except.error e
        | Except.ok tail => Except.ok (out ++ tail)

/-- get_predictions, main.py lines 41-119, from the already-fetched
dataset on: partition the dataset, drive every batch through the model,
and combine the outputs in order (the combined collection is then
written to the dated artifact).  Any exception reaching the outer
try/except is rewrapped into a FAILURE envelope carrying str(e), which
ends the run with no combined result. -/
def get_predictions (df : List Row) (ws : Nat → RemoteWorld) :
    Except Envelope (List (OutputRow PyVal PyVal)) :=
  match runBatches ws 0 (partitionBatches df Main.batch_size) with
  | Except.ok out => Except.ok out
  | Except.error e => Except.error { event_message := ("FAILURE"), reason := e.toMessage }

/-- A FLAT_SHEET row in the US marketplace. -/
def rUS : Row := { item_id := ("i1"), marketplace_id := ("000000"), img_id := ("g1"), product_type := ("FLAT_SHEET") }

/-- A FLAT_SHEET row in the UK marketplace. -/
def rUK : Row := { item_id := ("i2"), marketplace_id := ("111111"), img_id := ("g2"), product_type := ("FLAT_SHEET") }

/-- A FLAT_SHEET row in the ES marketplace. -/
def rES : Row := { item_id := ("i3"), marketplace_id := ("222222"), img_id := ("g3"), product_type := ("FLAT_SHEET") }

/-- A dataset of three single-row (product_type, marketplace_id) groups,
hence three batches. -/
def dfRun : List Row := [rUS, rUK, rES]

/-- A well-formed stage-1 body: a Python dict literal with one
embeddings vector. -/
def okStage1Body : String := "\x7b\x27embeddings\x27: [[1]]\x7d"

/-- A well-formed, doubly-encoded stage-2 body: a string literal whose
content is the neighbor dict, as the double eval of the code expects. -/
def okStage2Body : String :=
  "\x22\x7b\x27neighbor_item_ids\x27: [[\x27n1\x27]], \x27neighbor_item_ids_distances\x27: [[2]]\x7d\x22"

/-- Concrete temporary credentials. -/
def credsOK : Credentials := { accessKeyId := ("AK"), secretAccessKey := ("SK"), sessionToken := ("ST") }

/-- An invocation in which every remote step succeeds. -/
def wOK : RemoteWorld :=
  { assume_role := Except.ok credsOK
    stage1Body := Except.ok okStage1Body
    stage2Body := Except.ok okStage2Body }

/-- An invocation in which credential acquisition fails with
NoCredentialsError. -/
def wNC : RemoteWorld :=
  { assume_role := Except.error PyExc.noCredentialsError
    stage1Body := Except.ok okStage1Body
    stage2Body := Except.ok okStage2Body }

/-- An invocation whose stage-1 response body is malformed. -/
def wBadBody : RemoteWorld :=
  { assume_role := Except.ok credsOK
    stage1Body := Except.ok ("\x7b\x7b")
    stage2Body := Except.ok okStage2Body }

/-- A run in which the second invocation fails credential acquisition
and every other invocation succeeds. -/
def wsRun : Nat → RemoteWorld := fun i => if i == 1 then wNC else wOK

/-- The constructor state for the one-row US batch. -/
def stUS : InvokeModelState :=
  { df_chunk := [rUS]
    img_id_list := [("g1")]
    pt := ("FLAT_SHEET")
    mp := ("US")
    prompt := { physical_id := [("g1")], pt := ("FLAT_SHEET") } }

/-- Claim C1.  The claim is refuted by the code as written: on the
three-batch dataset dfRun, where the second batch's invocation reports
the credentials FAILURE envelope, invoke_model raises that envelope
instead of returning it, so the per-batch dict branch of main.py lines
94-98 never runs; the exception escapes the batch loop, get_predictions
rewraps str(e) and the whole run ends with a FAILURE envelope and no
combined result at all, although batch 1 (and batch 3) alone would have
produced full result rows. -/
theorem run_aborts_on_batch_failure :
    partitionBatches dfRun Main.batch_size = [[rUS], [rUK], [rES]]
    ∧ InvokeModel.init [rUS] = Except.ok stUS
    ∧ invoke_model stUS wOK = Except.ok
        [{ item_id := ("i1"), marketplace_id := ("000000"), img_id := ("g1"),
           product_type := ("FLAT_SHEET"),
           neighbor_item_ids := PyVal.str ("n1"), neighbors_dist := PyVal.int 2 }]
    ∧ get_predictions dfRun wsRun = Except.error
        { event_message := ("FAILURE")
          reason := ("\x7b\x27event_message\x27: \x27FAILURE\x27, \x27reason\x27: \x27Credentials could not be found\x27\x7d") } :=
  ⟨rfl, rfl, rfl, rfl⟩

/-- A first batch row for the reshaping examples. -/
def rowA : Row := { item_id := ("iA"), marketplace_id := ("000000"), img_id := ("gA"), product_type := ("FLAT_SHEET") }

/-- A second batch row for the reshaping examples. -/
def rowB : Row := { item_id := ("iB"), marketplace_id := ("000000"), img_id := ("gB"), product_type := ("FLAT_SHEET") }

/-- A two-row batch. -/
def dfPair : List Row := [rowA, rowB]

/-- Neighbor id lists of lengths 3 and 2. -/
def nidsW : List (List String) := [[("a"), ("b"), ("c")], [("d"), ("e")]]

/-- Matching distance lists of lengths 3 and 2. -/
def ndistsW : List (List Int) := [[1, 2, 3], [4, 5]]

/-- Claim C2.  The claim is refuted by the code as written: on the
two-row batch whose neighbor lists have lengths 3 and 2, the reshaping
loop emits 10 = 2 * (3 + 2) rows, not 5, and it pairs rows with other
rows' neighbor lists: the output contains a row carrying rowB's ids
together with the first neighbor of rowA's list. -/
theorem shaper_emits_cross_product_at_example :
    (shapeResults dfPair nidsW ndistsW).length = 10
    ∧ ({ item_id := ("iB"), marketplace_id := ("000000"), img_id := ("gB"),
         product_type := ("FLAT_SHEET"),
         neighbor_item_ids := ("a"), neighbors_dist := (1 : Int) } : OutputRow String Int)
        ∈ shapeResults dfPair nidsW ndistsW := by
  constructor
  · rfl
  · decide

/-- Claim C5.  When the batch held by the constructor state exceeds the
configured limit of 32, invoke_model fails with the size-validation
FAILURE envelope, and the outcome is the same whatever the remote world
would have answered: no remote step is consulted. -/
theorem invoke_validates_batch_size (st : InvokeModelState) (w w' : RemoteWorld)
    (h : st.img_id_list.length > InvokeModel.batch_size) :
    invoke_model st w = Except.error (PyExc.envelopeExc
      { event_message := ("FAILURE"), reason := ("the batch_size should be 32") })
    ∧ invoke_model st w = invoke_model st w' := by
  constructor
  · unfold invoke_model
    rw [if_pos h]
    rfl
  · unfold invoke_model
    rw [if_pos h, if_pos h]

/-- A 33-row batch, all rows identical copies of the US row. -/
def dfBig : List Row := List.replicate 33 rUS

/-- The constructor state for the 33-row batch. -/
def stBig : InvokeModelState :=
  { df_chunk := dfBig
    img_id_list := List.replicate 33 ("g1")
    pt := ("FLAT_SHEET")
    mp := ("US")
    prompt := { physical_id := List.replicate 33 ("g1"), pt := ("FLAT_SHEET") } }

/-- Witness for invoke_validates_batch_size at the 33-row state of the
spec's example. -/
theorem invoke_validates_batch_size_witness :
    stBig.img_id_list.length > InvokeModel.batch_size
    ∧ (invoke_model stBig wOK = Except.error (PyExc.envelopeExc
        { event_message := ("FAILURE"), reason := ("the batch_size should be 32") })
      ∧ invoke_model stBig wOK = invoke_model stBig wNC) :=
  ⟨by decide, invoke_validates_batch_size stBig wOK wNC (by decide)⟩

/-- A row whose marketplace is absent from the registry. -/
def rBad : Row := { item_id := ("i9"), marketplace_id := ("999999"), img_id := ("g9"), product_type := ("FLAT_SHEET") }

/-- The one-batch dataset containing only the unknown-marketplace row. -/
def dfBad : List Row := [rBad]

/-- Claim C6.  The registry lookup on the unknown marketplace does fail
with a KeyError naming the id, but the claim is refuted by the code as
written: the lookup happens in the InvokeModel constructor, outside any
per-batch handling, so the KeyError escapes the batch loop and the whole
run ends with a FAILURE envelope whose reason is str(KeyError); the run
does not continue past the failing batch. -/
theorem unknown_marketplace_aborts_run :
    mps_mapping ("999999") = Option.none
    ∧ InvokeModel.init dfBad = Except.error (PyExc.keyError ("999999"))
    ∧ get_predictions dfBad (fun _ => wOK) = Except.error
        { event_message := ("FAILURE"), reason := ("\x27999999\x27") } :=
  ⟨rfl, rfl, rfl⟩

/-- A stage-1 body that is a legal Python dict display but not JSON
(single-quoted key). -/
def pyOnlyBody : String := "\x7b\x27embeddings\x27: [[1, 2]]\x7d"

/-- A body that is a call expression: evaluating it runs code. -/
def callBody : String := "print(\x27pwned\x27)"

/-- Claim C7.  The claim is refuted by the code as written: response
bodies are decoded with eval, not a strict JSON parser.  The
single-quoted payload is accepted and silently coerced although strict
JSON parsing rejects it; a call-expression payload is evaluated, running
code; and a malformed payload surfaces as the generic wrapped FAILURE
envelope of invokemodel.py lines 155-159, not as a named ParseError. -/
theorem responses_evaluated_not_json_parsed :
    decodeStage1 pyOnlyBody = Except.ok (PyVal.list [PyVal.list [PyVal.int 1, PyVal.int 2]])
    ∧ jsonLoads pyOnlyBody = Option.none
    ∧ pyEval callBody = some (PyVal.callRes ("print") [PyVal.str ("pwned")], true)
    ∧ jsonLoads callBody = Option.none
    ∧ invoke_model stUS wBadBody = Except.error (PyExc.envelopeExc
        { event_message := ("FAILURE"), reason := ("An error occurred: SyntaxError: invalid syntax") }) :=
  ⟨rfl, rfl, rfl, rfl, rfl⟩

/-- Claim C8, counterexample to the claim as stated: the reason carried
by the credentials FAILURE envelope is the capitalized string of
invokemodel.py line 153, which is not exactly the lowercase string the
claim names. -/
theorem credentials_reason_is_capitalized :
    invoke_model stUS wNC = Except.error (PyExc.envelopeExc
      { event_message := ("FAILURE"), reason := ("Credentials could not be found") })
    ∧ ("Credentials could not be found") ≠ ("credentials could not be found") :=
  ⟨rfl, by decide⟩

/-- Claim C8 as amended: when credential acquisition fails with the
missing-credentials condition, invoke_model reports the FAILURE envelope
whose reason is exactly the capitalized string of invokemodel.py line
153, and this failure mode is distinct from the generic wrapper, which
reports any other assume-role failure with the underlying message
prefixed by the generic text. -/
theorem credentials_failure_mode (st : InvokeModelState) (w : RemoteWorld)
    (hsize : ¬ st.img_id_list.length > InvokeModel.batch_size)
    (hcred : w.assume_role = Except.error PyExc.noCredentialsError) :
    invoke_model st w = Except.error (PyExc.envelopeExc
      { event_message := ("FAILURE"), reason := ("Credentials could not be found") })
    ∧ ∀ (w' : RemoteWorld) (e : PyExc), w'.assume_role = Except.error e →
        e ≠ PyExc.noCredentialsError →
        invoke_model st w' = Except.error (PyExc.envelopeExc
          { event_message := ("FAILURE"), reason := ("An error occurred: " ++ e.toMessage) }) := by
  constructor
  · unfold invoke_model invokeModelTry
    rw [if_neg hsize, hcred]
  · intro w' e h1 h2
    unfold invoke_model invokeModelTry
    rw [if_neg hsize, h1]
    cases e with
    | keyError k => rfl
    | noCredentialsError => exact absurd rfl h2
    | envelopeExc env => rfl
    | otherError m => rfl

/-- Witness for credentials_failure_mode at the one-row US state and the
failing-credentials invocation. -/
theorem credentials_failure_mode_witness :
    (¬ stUS.img_id_list.length > InvokeModel.batch_size
      ∧ wNC.assume_role = Except.error PyExc.noCredentialsError)
    ∧ (invoke_model stUS wNC = Except.error (PyExc.envelopeExc
        { event_message := ("FAILURE"), reason := ("Credentials could not be found") })
      ∧ ∀ (w' : RemoteWorld) (e : PyExc), w'.assume_role = Except.error e →
          e ≠ PyExc.noCredentialsError →
          invoke_model stUS w' = Except.error (PyExc.envelopeExc
            { event_message := ("FAILURE"), reason := ("An error occurred: " ++ e.toMessage) })) :=
  ⟨⟨by decide, rfl⟩, credentials_failure_mode stUS wNC (by decide) rfl⟩

/-- Claim C9.  The constructor derives everything sent to the endpoints
from the img_id column and the FIRST row alone: its result on a
non-empty chunk is exactly the state whose prompt is the img_id column
paired with the first row's product type, whose marketplace is the
region resolved from the first row's marketplace id; the stage-2 request
dictionary carries that same pt and marketplace; and replacing the tail
rows by any rows with the same img_id column (whatever their product
types and marketplace ids, checked by nothing) leaves the prompt and
marketplace unchanged. -/
theorem prompt_uses_first_row_only (r : Row) (rest rest' : List Row) (region : String)
    (hmp : mps_mapping r.marketplace_id = some region) :
    InvokeModel.init (r :: rest)
      = Except.ok
          { df_chunk := r :: rest
            img_id_list := (r :: rest).map Row.img_id
            pt := r.product_type
            mp := region
            prompt := { physical_id := (r :: rest).map Row.img_id, pt := r.product_type } }
    ∧ (∀ (st : InvokeModelState) (emb : PyVal),
        input_artifact st emb
          = PyVal.dict [(("embedding"), emb), (("pt"), PyVal.str st.pt),
              (("marketplace"), PyVal.str st.mp)])
    ∧ (rest.map Row.img_id = rest'.map Row.img_id →
        (InvokeModel.init (r :: rest)).map (fun st => (st.prompt, st.mp))
          = (InvokeModel.init (r :: rest')).map (fun st => (st.prompt, st.mp))) := by
  refine ⟨?_, ?_, ?_⟩
  · simp only [InvokeModel.init]
    rw [hmp]
  · intro st emb
    rfl
  · intro himg
    simp only [InvokeModel.init]
    rw [hmp]
    simp [Except.map, himg]

/-- A second row whose product type and marketplace differ from the
first row's and whose marketplace is not even in the registry. -/
def rOther : Row := { item_id := ("i2"), marketplace_id := ("999999"), img_id := ("g2"), product_type := ("OTHER_PT") }

/-- A replacement tail row with the same img_id as rOther but yet
another product type and marketplace. -/
def rOther2 : Row := { item_id := ("iX"), marketplace_id := ("111111"), img_id := ("g2"), product_type := ("THIRD_PT") }

/-- Witness for prompt_uses_first_row_only on a heterogeneous batch:
the tail row's product type and marketplace (unknown to the registry)
are never consulted. -/
theorem prompt_uses_first_row_only_witness :
    mps_mapping rUS.marketplace_id = some ("US")
    ∧ (InvokeModel.init (rUS :: [rOther])
        = Except.ok
            { df_chunk := rUS :: [rOther]
              img_id_list := (rUS :: [rOther]).map Row.img_id
              pt := rUS.product_type
              mp := ("US")
              prompt := { physical_id := (rUS :: [rOther]).map Row.img_id, pt := rUS.product_type } }
      ∧ (∀ (st : InvokeModelState) (emb : PyVal),
          input_artifact st emb
            = PyVal.dict [(("embedding"), emb), (("pt"), PyVal.str st.pt),
                (("marketplace"), PyVal.str st.mp)])
      ∧ ([rOther].map Row.img_id = [rOther2].map Row.img_id →
          (InvokeModel.init (rUS :: [rOther])).map (fun st => (st.prompt, st.mp))
            = (InvokeModel.init (rUS :: [rOther2])).map (fun st => (st.prompt, st.mp)))) :=
  ⟨rfl, prompt_uses_first_row_only rUS [rOther] [rOther2] ("US") rfl⟩

/-- Zipping two lists only reads the first min-length entries of
each. -/
theorem zip_take_min {α β : Type} :
    ∀ (l1 : List α) (l2 : List β),
      l1.zip l2 = (l1.take (min l1.length l2.length)).zip (l2.take (min l1.length l2.length))
  | [], _ => by simp
  | _ :: _, [] => by simp
  | a :: t1, b :: t2 => by
    simp only [List.length_cons, Nat.succ_min_succ, List.take_succ_cons, List.zip_cons_cons]
    exact congrArg _ (zip_take_min t1 t2)

/-- Length of the flattened map when every image has the same
length. -/
theorem length_flatten_map_const {α β : Type} (f : α → List β) (k : Nat)
    (h : ∀ x, (f x).length = k) :
    ∀ df : List α, ((df.map f).flatten).length = df.length * k
  | [] => by simp
  | x :: df => by
    simp only [List.map_cons, List.flatten_cons, List.length_append, List.length_cons,
      length_flatten_map_const f k h df, h x]
    ring

/-- Length of the reshaped output: the batch size times the sum over
the zipped outer entries of the min of the inner lengths. -/
theorem shapeResults_length {ν δ : Type} (df : List Row) :
    ∀ (nids : List (List ν)) (nd : List (List δ)),
      (shapeResults df nids nd).length
        = df.length * (List.zipWith (fun a b => min a.length b.length) nids nd).sum
  | [], _ => by simp [shapeResults]
  | _ :: _, [] => by simp [shapeResults]
  | a :: t1, b :: t2 => by
    have ih := shapeResults_length df t1 t2
    simp only [shapeResults, List.zip_cons_cons, List.map_cons, List.flatten_cons,
      List.length_append, List.zipWith_cons_cons, List.sum_cons] at ih ⊢
    rw [length_flatten_map_const _ ((a.zip b).length) (fun row => by simp) df]
    rw [ih, List.length_zip]
    ring

/-- Claim C10.  The reshaping loop truncates, at both levels, to the
shorter of the parallel sequences: the output equals the output of the
outer sequences cut to their common length (the inner zip already reads
only the first min entries of each pair), and the total row count is the
batch size times the sum of the pairwise min inner lengths; the loop has
no failure case, so nothing is raised for the dropped excess. -/
theorem shape_truncates_to_min {ν δ : Type} (df : List Row)
    (nids : List (List ν)) (nd : List (List δ)) :
    shapeResults df nids nd
      = shapeResults df (nids.take (min nids.length nd.length))
          (nd.take (min nids.length nd.length))
    ∧ (shapeResults df nids nd).length
      = df.length * (List.zipWith (fun a b => min a.length b.length) nids nd).sum := by
  constructor
  · unfold shapeResults
    rw [← zip_take_min]
  · exact shapeResults_length df nids nd

/-- Claim C3.  When the outer parallel sequences have matching shapes
(same outer length, pairwise equal inner lengths k_i), the reshaping
loop pairs every outer entry with every row of the batch and emits
exactly batch-size * (k_1 + ... + k_m) rows. -/
theorem shape_cross_product_count {ν δ : Type} (df : List Row)
    (nids : List (List ν)) (nd : List (List δ))
    (h : List.Forall₂ (fun a b => a.length = b.length) nids nd) :
    (shapeResults df nids nd).length = df.length * (nids.map List.length).sum := by
  rw [shapeResults_length df nids nd]
  congr 1
  induction h with
  | nil => rfl
  | cons hab _ ih =>
    simp only [List.zipWith_cons_cons, List.map_cons, List.sum_cons, ih, hab, Nat.min_self]

/-- Witness for shape_cross_product_count at the two-row batch with
neighbor lists of lengths 3 and 2: 2 * (3 + 2) = 10 rows. -/
theorem shape_cross_product_count_witness :
    (shapeResults dfPair nidsW ndistsW).length = dfPair.length * ((nidsW.map List.length).sum) :=
  shape_cross_product_count dfPair nidsW ndistsW
    (List.Forall₂.cons rfl (List.Forall₂.cons rfl List.Forall₂.nil))

/-- uniqueKeysAux of the empty column is empty whatever the fuel. -/
theorem uniqueKeysAux_nil : ∀ n : Nat, uniqueKeysAux n [] = []
  | 0 => rfl
  | _ + 1 => rfl

/-- Above the column length the fuel does not matter. -/
theorem uniqueKeysAux_fuel :
    ∀ (m n : Nat) (l : List String), l.length ≤ m → l.length ≤ n →
      uniqueKeysAux m l = uniqueKeysAux n l
  | 0, n, l, hm, _ => by
    have hl : l = [] := List.length_eq_zero.mp (Nat.le_zero.mp hm)
    subst hl
    rw [uniqueKeysAux_nil, uniqueKeysAux_nil]
  | _ + 1, _, [], _, _ => by rw [uniqueKeysAux_nil, uniqueKeysAux_nil]
  | _ + 1, 0, _ :: _, _, hn => by simp at hn
  | m + 1, n + 1, k :: rest, hm, hn => by
    simp only [uniqueKeysAux]
    have hf := List.length_filter_le (fun x => !(x == k)) rest
    simp only [List.length_cons] at hm hn
    exact congrArg _ (uniqueKeysAux_fuel m n _ (by omega) (by omega))

/-- Unfolding uniqueKeys at a cons cell: keep the head, deduplicate the
head out of the tail, continue. -/
theorem uniqueKeys_cons (k : String) (rest : List String) :
    uniqueKeys (k :: rest) = k :: uniqueKeys (rest.filter (fun x => !(x == k))) := by
  unfold uniqueKeys
  simp only [List.length_cons, uniqueKeysAux]
  exact congrArg _ (uniqueKeysAux_fuel rest.length (rest.filter (fun x => !(x == k))).length _
    (List.length_filter_le _ _) (Nat.le_refl _))

/-- Every key uniqueKeysAux returns occurs in the column. -/
theorem mem_of_mem_uniqueKeysAux :
    ∀ (n : Nat) (l : List String) (k : String), k ∈ uniqueKeysAux n l → k ∈ l
  | 0, _, _, h => absurd h (by simp [uniqueKeysAux])
  | _ + 1, [], _, h => absurd h (by simp [uniqueKeysAux])
  | n + 1, a :: rest, k, h => by
    simp only [uniqueKeysAux, List.mem_cons] at h
    rcases h with h | h
    · exact h ▸ List.mem_cons_self a rest
    · exact List.mem_cons_of_mem a (List.mem_of_mem_filter (mem_of_mem_uniqueKeysAux n _ k h))

/-- Every key uniqueKeys returns occurs in the column. -/
theorem mem_of_mem_uniqueKeys (l : List String) (k : String) (h : k ∈ uniqueKeys l) : k ∈ l :=
  mem_of_mem_uniqueKeysAux l.length l k h

/-- Concatenating the groups of a row list over the distinct values of
a key column permutes the list. -/
theorem groups_perm (key : Row → String) :
    ∀ (n : Nat) (l : List Row), l.length ≤ n →
      List.Perm
        (((uniqueKeys (l.map key)).map (fun k => l.filter (fun s => key s == k))).flatten) l
  | 0, l, h => by
    have hl : l = [] := List.length_eq_zero.mp (Nat.le_zero.mp h)
    subst hl
    simp [uniqueKeys, uniqueKeysAux_nil]
  | _ + 1, [], _ => by simp [uniqueKeys, uniqueKeysAux_nil]
  | n + 1, r :: rest, hlen => by
    simp only [List.length_cons] at hlen
    simp only [List.map_cons, uniqueKeys_cons, List.filter_map]
    have hcomp : ((fun x => !(x == key r)) ∘ key) = (fun s => !(key s == key r)) := rfl
    rw [hcomp]
    set rest₁ := rest.filter (fun s => !(key s == key r)) with hrest₁
    simp only [List.map_cons, List.flatten_cons]
    have hhead : (r :: rest).filter (fun s => key s == key r)
        = r :: rest.filter (fun s => key s == key r) :=
      List.filter_cons_of_pos (by simp)
    rw [hhead]
    have htail : ∀ k ∈ uniqueKeys (rest₁.map key),
        (r :: rest).filter (fun s => key s == k) = rest₁.filter (fun s => key s == k) := by
      intro k hk
      obtain ⟨s, hs, hks⟩ := List.mem_map.mp (mem_of_mem_uniqueKeys _ _ hk)
      have hne : key s ≠ key r := by
        have hf := List.of_mem_filter hs
        simpa using hf
      have hrk : (key r == k) = false := by
        apply beq_eq_false_iff_ne.mpr
        intro hc
        rw [← hks] at hc
        exact hne hc.symm
      have h1 : (r :: rest).filter (fun x => key x == k) = rest.filter (fun x => key x == k) :=
        List.filter_cons_of_neg (by simp [hrk])
      have h2 : rest₁.filter (fun x => key x == k) = rest.filter (fun x => key x == k) := by
        rw [hrest₁, List.filter_filter]
        apply List.filter_congr
        intro x _
        by_cases hx : key x = k
        · have h3 : (key x == k) = true := beq_iff_eq.mpr hx
          have h4 : (key x == key r) = false := by
            apply beq_eq_false_iff_ne.mpr
            intro hc
            apply hne
            rw [hks, ← hx]
            exact hc
          simp [h3, h4]
        · have h3 : (key x == k) = false := beq_eq_false_iff_ne.mpr hx
          simp [h3]
      rw [h1, ← h2]
    rw [List.map_congr_left htail, List.cons_append]
    have hih := groups_perm key n rest₁ (le_trans (List.length_filter_le _ _) (by omega))
    exact List.Perm.cons r
      (List.Perm.trans (List.Perm.append_left _ hih) (List.filter_append_perm _ rest))

/-- Reassociating a doubly nested flatten of maps through the list of
key pairs. -/
theorem flatten_map_flatten {α β γ : Type} (P : List α) (K : α → List β) (g : α → β → List γ) :
    (P.map (fun p => ((K p).map (fun m => g p m)).flatten)).flatten
      = (((P.map (fun p => (K p).map (fun m => (p, m)))).flatten).map
          (fun pm => g pm.1 pm.2)).flatten := by
  induction P with
  | nil => rfl
  | cons p P ih =>
    simp only [List.map_cons, List.flatten_cons, List.map_append, List.flatten_append,
      List.map_map]
    rw [ih]
    rfl

/-- Flattening after mapping a producer of chunk lists equals mapping
the flattened producer. -/
theorem flatten_flatten_map {α β : Type} (ks : List α) (f : α → List (List β)) :
    ((ks.map f).flatten).flatten = (ks.map (fun k => (f k).flatten)).flatten := by
  induction ks with
  | nil => rfl
  | cons k ks ih =>
    simp only [List.map_cons, List.flatten_cons, List.flatten_append, ih]

/-- Flattening respects pointwise permutation of the mapped groups. -/
theorem flatten_perm_congr {α : Type} (ks : List α) (f g : α → List Row)
    (h : ∀ k ∈ ks, List.Perm (f k) (g k)) :
    List.Perm ((ks.map f).flatten) ((ks.map g).flatten) := by
  induction ks with
  | nil => exact List.Perm.refl _
  | cons k ks ih =>
    simp only [List.map_cons, List.flatten_cons]
    exact List.Perm.append (h k (List.mem_cons_self k ks))
      (ih (fun a ha => h a (List.mem_cons_of_mem k ha)))

/-- The batch list is the concatenation, over the visited key pairs, of
the chunk split of each group. -/
theorem partitionBatches_eq (df : List Row) (B : Nat) :
    partitionBatches df B
      = ((groupKeys df).map (fun pm => splitChunks B (groupRows df pm.1 pm.2))).flatten := by
  unfold partitionBatches groupKeys
  exact flatten_map_flatten _ _ _

/-- The full chunks of the split concatenate to the first q * B rows. -/
theorem flatten_range_chunks (B : Nat) (l : List Row) :
    ∀ q : Nat, q * B ≤ l.length →
      ((List.range q).map (fun i => (l.drop (i * B)).take B)).flatten = l.take (q * B)
  | 0, _ => by simp
  | q + 1, h => by
    have hq : q * B ≤ l.length :=
      le_trans (Nat.mul_le_mul_right B (Nat.le_succ q)) h
    rw [List.range_succ, List.map_append, List.flatten_append,
      flatten_range_chunks B l q hq]
    simp only [List.map_cons, List.map_nil, List.flatten_cons, List.flatten_nil,
      List.append_nil]
    rw [← List.take_add]
    congr 1
    ring

/-- With positive batch size, the chunks of a group concatenate back to
the group. -/
theorem splitChunks_flatten (B : Nat) (hB : 0 < B) (l : List Row) :
    (splitChunks B l).flatten = l := by
  unfold splitChunks
  rw [List.flatten_append]
  have hdm := Nat.div_add_mod l.length B
  rw [Nat.mul_comm] at hdm
  have hle : l.length / B * B ≤ l.length := Nat.div_mul_le_self _ _
  rw [flatten_range_chunks B l (l.length / B) hle]
  by_cases h : l.length % B > 0
  · rw [if_pos h]
    simp only [List.flatten_cons, List.flatten_nil, List.append_nil]
    rw [Nat.eq_sub_of_add_eq hdm, List.take_append_drop]
  · rw [if_neg h]
    have hz : l.length % B = 0 := Nat.eq_zero_of_not_pos h
    rw [hz, Nat.add_zero] at hdm
    simp only [List.flatten_nil, List.append_nil]
    rw [hdm, List.take_length]

/-- With positive batch size, the chunk lengths of a group of size N
are floor(N / B) copies of B followed by N mod B when that remainder is
positive. -/
theorem splitChunks_lengths (B : Nat) (hB : 0 < B) (l : List Row) :
    (splitChunks B l).map List.length
      = List.replicate (l.length / B) B
        ++ (if l.length % B > 0 then [l.length % B] else []) := by
  unfold splitChunks
  rw [List.map_append]
  congr 1
  · rw [List.map_map]
    apply List.eq_replicate_iff.mpr
    constructor
    · simp
    · intro b hb
      obtain ⟨i, hi, hib⟩ := List.mem_map.mp hb
      rw [List.mem_range] at hi
      have h1 : (i + 1) * B ≤ l.length :=
        le_trans (Nat.mul_le_mul_right B hi) (Nat.div_mul_le_self _ _)
      rw [Nat.succ_mul, Nat.add_comm] at h1
      have h2 : B ≤ l.length - i * B := Nat.le_sub_of_add_le h1
      rw [← hib]
      simp only [Function.comp_apply, List.length_take, List.length_drop]
      exact Nat.min_eq_left h2
  · by_cases h : l.length % B > 0
    · rw [if_pos h, if_pos h]
      simp only [List.map_cons, List.map_nil, List.length_drop]
      have hle : l.length % B ≤ l.length := Nat.mod_le _ _
      congr 1
      omega
    · rw [if_neg h, if_neg h]
      rfl

/-- Every row of a chunk comes from the split group. -/
theorem subset_of_mem_splitChunks (B : Nat) (l b : List Row) (hb : b ∈ splitChunks B l) :
    ∀ r ∈ b, r ∈ l := by
  unfold splitChunks at hb
  rw [List.mem_append] at hb
  intro r hr
  rcases hb with hb | hb
  · obtain ⟨i, _, hib⟩ := List.mem_map.mp hb
    rw [← hib] at hr
    exact List.mem_of_mem_drop (List.mem_of_mem_take hr)
  · by_cases h : l.length % B > 0
    · rw [if_pos h, List.mem_singleton] at hb
      rw [hb] at hr
      exact List.mem_of_mem_drop hr
    · rw [if_neg h] at hb
      simp at hb

/-- With positive batch size no chunk exceeds the batch size. -/
theorem length_le_of_mem_splitChunks (B : Nat) (hB : 0 < B) (l b : List Row)
    (hb : b ∈ splitChunks B l) : b.length ≤ B := by
  have hlen : b.length ∈ (splitChunks B l).map List.length :=
    List.mem_map_of_mem List.length hb
  rw [splitChunks_lengths B hB l, List.mem_append] at hlen
  rcases hlen with h | h
  · exact le_of_eq (List.eq_of_mem_replicate h)
  · by_cases hc : l.length % B > 0
    · rw [if_pos hc, List.mem_singleton] at h
      rw [h]
      exact le_of_lt (Nat.mod_lt _ hB)
    · rw [if_neg hc] at h
      simp at h

/-- Concatenating all groups in visited key order permutes the
dataset. -/
theorem groups_flatten_perm (df : List Row) :
    List.Perm (((groupKeys df).map (fun pm => groupRows df pm.1 pm.2)).flatten) df := by
  have h := flatten_map_flatten (uniqueKeys (df.map Row.product_type))
    (fun p => uniqueKeys ((df.filter (fun r => r.product_type == p)).map Row.marketplace_id))
    (fun p m => groupRows df p m)
  unfold groupKeys
  rw [← h]
  have hinner : ∀ p ∈ uniqueKeys (df.map Row.product_type),
      List.Perm
        (((uniqueKeys ((df.filter (fun r => r.product_type == p)).map Row.marketplace_id)).map
          (fun m => groupRows df p m)).flatten)
        (df.filter (fun s => s.product_type == p)) := by
    intro p _
    unfold groupRows
    exact groups_perm Row.marketplace_id (df.filter (fun r => r.product_type == p)).length
      (df.filter (fun r => r.product_type == p)) (Nat.le_refl _)
  refine List.Perm.trans ?_ (groups_perm Row.product_type df.length df (Nat.le_refl _))
  exact flatten_perm_congr _ _ _ hinner

/-- The conjunction of partitioner properties claimed for a dataset and
a batch size: concatenating the batches permutes the dataset; the batch
list is, group by group in visited order, the chunk split of that group
(groups contiguous, order within each group preserved); each group of
size N splits into floor(N / B) full chunks of size B followed by one
chunk of N mod B rows omitted when zero; and every batch is within the
size bound and homogeneous in product type and marketplace. -/
def PartitionSpec (df : List Row) (B : Nat) : Prop :=
  List.Perm ((partitionBatches df B).flatten) df
  ∧ partitionBatches df B
      = ((groupKeys df).map (fun pm => splitChunks B (groupRows df pm.1 pm.2))).flatten
  ∧ (∀ pm ∈ groupKeys df,
      (splitChunks B (groupRows df pm.1 pm.2)).map List.length
        = List.replicate ((groupRows df pm.1 pm.2).length / B) B
          ++ (if (groupRows df pm.1 pm.2).length % B > 0
              then [(groupRows df pm.1 pm.2).length % B] else []))
  ∧ (∀ b ∈ partitionBatches df B, b.length ≤ B
      ∧ ∀ r ∈ b, ∀ s ∈ b,
          r.product_type = s.product_type ∧ r.marketplace_id = s.marketplace_id)

/-- Claim C4.  For every dataset and positive batch size the partition
of main.py lines 64-85 satisfies the full partitioner contract. -/
theorem partition_correct (df : List Row) (B : Nat) (hB : 0 < B) : PartitionSpec df B := by
  refine ⟨?_, partitionBatches_eq df B, ?_, ?_⟩
  · rw [partitionBatches_eq df B, flatten_flatten_map]
    have hsc : ∀ pm : String × String,
        (splitChunks B (groupRows df pm.1 pm.2)).flatten = groupRows df pm.1 pm.2 :=
      fun pm => splitChunks_flatten B hB _
    rw [List.map_congr_left (fun pm _ => hsc pm)]
    exact groups_flatten_perm df
  · intro pm _
    exact splitChunks_lengths B hB _
  · intro b hb
    rw [partitionBatches_eq df B] at hb
    rw [List.mem_flatten] at hb
    obtain ⟨cl, hcl, hbcl⟩ := hb
    obtain ⟨pm, _, hpm⟩ := List.mem_map.mp hcl
    rw [← hpm] at hbcl
    constructor
    · exact length_le_of_mem_splitChunks B hB _ b hbcl
    · intro r hr s hs
      have hrg := subset_of_mem_splitChunks B _ b hbcl r hr
      have hsg := subset_of_mem_splitChunks B _ b hbcl s hs
      unfold groupRows at hrg hsg
      have hr2 : r.marketplace_id = pm.2 := by
        have := List.of_mem_filter hrg
        simpa using this
      have hs2 : s.marketplace_id = pm.2 := by
        have := List.of_mem_filter hsg
        simpa using this
      have hr1 : r.product_type = pm.1 := by
        have := List.of_mem_filter (List.mem_of_mem_filter hrg)
        simpa using this
      have hs1 : s.product_type = pm.1 := by
        have := List.of_mem_filter (List.mem_of_mem_filter hsg)
        simpa using this
      exact ⟨hr1.trans hs1.symm, hr2.trans hs2.symm⟩

/-- A four-row dataset: three rows in the (FLAT_SHEET, 000000) group
and one in (FLAT_SHEET, 111111). -/
def dfPart : List Row := [rowA, rowB, rUS, rUK]

/-- Witness for partition_correct with batch size 2: the first group
splits into one full chunk of 2 and a remainder chunk of 1, the second
group into one chunk of 1. -/
theorem partition_correct_witness : 0 < 2 ∧ PartitionSpec dfPart 2 :=
  ⟨by decide, partition_correct dfPart 2 (by decide)⟩
